import Mathlib

/-!
# Verification of the shopping-backend order / payment core

Shallow embedding of the order lifecycle and payment reconciliation code
(`orderController` / `paymentController` in the repository, together with the
`Order` Sequelize model).  Conventions of the embedding:

* JavaScript numbers coming from request bodies and money computations are
  modelled as exact rationals (`ℚ`); item quantities and ids follow the API
  schema (`integer`) and are modelled as `Nat`; product stock is an `Int`
  because the unconditional decrement can drive it below zero.
* A request field that is absent, or whose JavaScript value is falsy or of the
  wrong type (e.g. `items` not an array), is modelled as `none`.
* Database and payment-provider calls that can throw are driven by explicit
  fault oracles (`DbFaults`, `WebhookFaults`, a `retrieve`/`createIntent`/
  `refund` oracle function); a `none`/`true` answer from the oracle models the
  call throwing, and the surrounding `try/catch` structure of the source is
  reproduced explicitly.
* `Math.random().toString(36)` is modelled by an oracle string constrained by
  `wfRandom36` (the possible shapes of that JavaScript expression's value).
-/

namespace Shoping

/-- `status` column of the `orders` table. -/
inductive OrderStatus
  | pending
  | processing
  | shipped
  | delivered
  | cancelled
  deriving DecidableEq, Repr

/-- `paymentStatus` column of the `orders` table. -/
inductive PaymentStatus
  | pending
  | paid
  | failed
  | refunded
  deriving DecidableEq, Repr

/-- One entry of the `items` JSON array of an order request. -/
structure OrderItem where
  productId : Nat
  quantity : Nat
  price : ℚ
  deriving DecidableEq, Repr

/-- A persisted `Order` row (the columns the verified code reads or writes). -/
structure Order where
  id : Nat
  orderNumber : String
  userId : Nat
  items : List OrderItem
  subtotal : ℚ
  tax : ℚ
  shipping : ℚ
  discount : ℚ
  totalAmount : ℚ
  status : OrderStatus
  paymentStatus : PaymentStatus
  paymentId : Option String
  shippingAddress : String
  billingAddress : String
  notes : Option String
  trackingNumber : Option String
  deriving DecidableEq, Repr

/-- A persisted `Product` row (only the column this code touches). -/
structure Product where
  id : Nat
  stock : Int
  deriving DecidableEq, Repr

/-- The persistent state the verified endpoints read and mutate. -/
structure Store where
  orders : List Order
  products : List Product
  nextOrderId : Nat
  deriving DecidableEq, Repr

/-- `Order.findByPk(oid)`. -/
def findOrder (s : Store) (oid : Nat) : Option Order :=
  s.orders.find? (fun o => o.id == oid)

/-- `Order.findOne({ where: { id: oid, userId: uid } })`. -/
def findUserOrder (s : Store) (oid uid : Nat) : Option Order :=
  s.orders.find? (fun o => o.id == oid && o.userId == uid)

/-- `order.update(...)` for the row(s) with primary key `oid`. -/
def setOrder (s : Store) (oid : Nat) (f : Order → Order) : Store :=
  { s with orders := s.orders.map (fun o => if o.id == oid then f o else o) }

/-- The `paymentStatus` of the order `oid`, if it exists. -/
def payStatusOf (s : Store) (oid : Nat) : Option PaymentStatus :=
  (findOrder s oid).map (fun o => o.paymentStatus)

/-- The `status` of the order `oid`, if it exists. -/
def statusOf (s : Store) (oid : Nat) : Option OrderStatus :=
  (findOrder s oid).map (fun o => o.status)

/-- The payment-status transitions the specification allows: staying put,
`pending → paid`, `pending → failed`, and `paid → refunded`. -/
def specPaymentEdge : PaymentStatus → PaymentStatus → Bool
  | .pending, .paid => true
  | .pending, .failed => true
  | .paid, .refunded => true
  | a, b => a == b

/-! ## Order number generation (`Order.beforeCreate` hook) -/

/-- A base-36 digit as produced by JavaScript `Number.prototype.toString(36)`:
one of `0-9a-z`. -/
def isBase36Digit (c : Char) : Bool :=
  "0123456789abcdefghijklmnopqrstuvwxyz".data.contains c

/-- An upper-case alphanumeric character: one of `0-9A-Z`. -/
def isUpperAlnum (c : Char) : Bool :=
  "0123456789ABCDEFGHIJKLMNOPQRSTUVWXYZ".data.contains c

/-- The possible shapes of `Math.random().toString(36)`: either `"0"`
(when the random double is exactly zero) or `"0."` followed by a non-empty
run of base-36 digits. -/
def wfRandom36 (r : String) : Bool :=
  match r.data with
  | ['0'] => true
  | '0' :: '.' :: ds => !ds.isEmpty && ds.all isBase36Digit
  | _ => false

/-- JavaScript `substr(start, len)`: at most `len` characters starting at
character index `start`. -/
def jsSubstr (s : String) (start len : Nat) : String :=
  String.mk ((s.data.drop start).take len)

/-- JavaScript `toUpperCase()` on the ASCII strings at hand: upper-case every
character. -/
def toUpperStr (t : String) : String :=
  String.mk (t.data.map Char.toUpper)

/-- `'ORD-' + Date.now() + '-' + Math.random().toString(36).substr(2, 9).toUpperCase()`.
`now` is the value of `Date.now()`, `rand` the value of `Math.random().toString(36)`.
JavaScript `substr(2, 9)` takes at most 9 characters starting at index 2. -/
def generateOrderNumber (now : Nat) (rand : String) : String :=
  "ORD-" ++ toString now ++ "-" ++ toUpperStr (jsSubstr rand 2 9)

/-- The `beforeCreate` hook: generate an order number only when none was
provided on the record being created. -/
def beforeCreate (provided : Option String) (now : Nat) (rand : String) : String :=
  match provided with
  | some n => n
  | none => generateOrderNumber now rand

/-! ## Order creation (`createOrder`) -/

/-- Body of `POST /api/orders`.  `items = none` models the field being absent
or not an array. -/
structure CreateOrderRequest where
  items : Option (List OrderItem)
  shippingAddress : Option String
  billingAddress : Option String
  notes : Option String
  deriving DecidableEq, Repr

/-- Fault oracle for the database calls inside `createOrder`:
`createFails` models `Order.create` throwing for a reason other than the
modelled validations, `decFails i` the `i`-th `Product.decrement` call
throwing, and `fetchFails` the post-commit `Order.findByPk` throwing. -/
structure DbFaults where
  createFails : Bool
  decFails : Nat → Bool
  fetchFails : Bool

/-- The fault-free oracle. -/
def DbFaults.none : DbFaults :=
  { createFails := false, decFails := fun _ => false, fetchFails := false }

/-- Outcome of `createOrder` as seen by the HTTP client. -/
inductive CreateOrderResult
  | invalidRequest (msg : String)
  | serverError
  | created (o : Order)
  deriving DecidableEq, Repr

/-- `let subtotal = 0; for (const item of items) subtotal += item.price * item.quantity`. -/
def computeSubtotal (items : List OrderItem) : ℚ :=
  items.foldl (fun acc it => acc + it.price * (it.quantity : ℚ)) 0

/-- `Product.decrement('stock', { by: qty, where: { id: pid } })`: every product
row matching the id loses `qty` stock; a non-matching id updates no row (and
does not throw). -/
def decrementStock (prods : List Product) (pid : Nat) (qty : Nat) : List Product :=
  prods.map (fun p => if p.id == pid then { p with stock := p.stock - (qty : Int) } else p)

/-- The `for (const item of items)` decrement loop, starting at item index `i`;
`none` when the oracle makes one of the calls throw. -/
def runDecrements (fault : Nat → Bool) (items : List OrderItem) (i : Nat)
    (prods : List Product) : Option (List Product) :=
  match items with
  | [] => some prods
  | it :: rest =>
    if fault i then none
    else runDecrements fault rest (i + 1) (decrementStock prods it.productId it.quantity)

/-- The fault-free effect of the decrement loop on a single product row:
its stock drops by the summed quantity of the items that reference it. -/
def totalQty (pid : Nat) (items : List OrderItem) : Int :=
  (items.map (fun it => if it.productId == pid then (it.quantity : Int) else 0)).sum

/-- The Sequelize `min: 0` validators of the `Order` model that can fire for
the values `createOrder` passes (`shipping` is the constant 10 and `discount`
defaults to 0, so only these three are non-trivial). -/
def orderValidationFails (subtotal tax totalAmount : ℚ) : Bool :=
  subtotal < 0 || tax < 0 || totalAmount < 0

/-- `POST /api/orders` (`createOrder`): validate, compute totals, then inside
one transaction insert the order row and decrement stock per line item;
commit, re-fetch the created row, and roll back to the pre-request state on
any error before the commit.  `uid` is `req.user.id`; `now`/`rand` drive the
`beforeCreate` hook. -/
def createOrder (faults : DbFaults) (now : Nat) (rand : String) (uid : Nat)
    (req : CreateOrderRequest) (s : Store) : CreateOrderResult × Store :=
  match req.items with
  | none => (.invalidRequest "Items are required and must be a non-empty array", s)
  | some items =>
    if items.isEmpty then
      (.invalidRequest "Items are required and must be a non-empty array", s)
    else
      match req.shippingAddress with
      | none => (.invalidRequest "Shipping address is required", s)
      | some addr =>
        let subtotal := computeSubtotal items
        let tax := subtotal * (1 / 10 : ℚ)
        let shipping : ℚ := 10
        let totalAmount := subtotal + tax + shipping
        let num := beforeCreate Option.none now rand
        if faults.createFails || orderValidationFails subtotal tax totalAmount
            || s.orders.any (fun o => o.orderNumber == num) then
          (.serverError, s)
        else
          let o : Order :=
            { id := s.nextOrderId
              orderNumber := num
              userId := uid
              items := items
              subtotal := subtotal
              tax := tax
              shipping := shipping
              discount := 0
              totalAmount := totalAmount
              status := .pending
              paymentStatus := .pending
              paymentId := Option.none
              shippingAddress := addr
              billingAddress := (req.billingAddress).getD addr
              notes := req.notes
              trackingNumber := Option.none }
          let s1 : Store :=
            { s with orders := s.orders ++ [o], nextOrderId := s.nextOrderId + 1 }
          match runDecrements faults.decFails items 0 s1.products with
          | Option.none => (.serverError, s)
          | some prods =>
            let s2 : Store := { s1 with products := prods }
            if faults.fetchFails then (.serverError, s2)
            else (.created o, s2)

/-! ## Order update (`updateOrder`, `PUT /api/orders/:id`) -/

/-- Caller roles. -/
inductive Role
  | user
  | admin
  | superAdmin
  deriving DecidableEq, Repr

/-- Body of `PUT /api/orders/:id`; `none` models an absent or falsy field
(the source guards each assignment with `if (field)`). -/
structure UpdateOrderRequest where
  status : Option OrderStatus
  trackingNumber : Option String
  notes : Option String
  deriving DecidableEq, Repr

/-- Outcome of `updateOrder`. -/
inductive UpdateOrderResult
  | notFound
  | forbidden
  | ok
  deriving DecidableEq, Repr

/-- Apply the partial-update object the source builds field by field. -/
def applyUpdate (req : UpdateOrderRequest) (o : Order) : Order :=
  let o := match req.status with
    | some st => { o with status := st }
    | Option.none => o
  let o := match req.trackingNumber with
    | some t => { o with trackingNumber := some t }
    | Option.none => o
  match req.notes with
  | some n => { o with notes := some n }
  | Option.none => o

/-- `PUT /api/orders/:id` (`updateOrder`): find the order, check that a plain
`user` owns it, then apply the partial update. -/
def updateOrderEndpoint (uid : Nat) (role : Role) (oid : Nat)
    (req : UpdateOrderRequest) (s : Store) : UpdateOrderResult × Store :=
  match findOrder s oid with
  | Option.none => (.notFound, s)
  | some o =>
    if role == .user && !(o.userId == uid) then (.forbidden, s)
    else (.ok, setOrder s oid (applyUpdate req))

/-! ## Payment provider model -/

/-- JavaScript `Math.round` on an exact rational: round half toward `+∞`. -/
def jsRound (q : ℚ) : Int :=
  ⌊q + 1 / 2⌋

/-- A Stripe payment intent as the verified code reads it. -/
structure PaymentIntent where
  id : String
  status : String
  amount : Int
  metadataOrderId : Option Nat
  metadataUserId : Option Nat
  deriving DecidableEq, Repr

/-! ## Create payment intent (`createPaymentIntent`) -/

/-- Outcome of `createPaymentIntent`. -/
inductive IntentResult
  | invalidRequest
  | notFound
  | alreadyPaid
  | serverError
  | ok (clientSecret : String)
  deriving DecidableEq, Repr

/-- `POST /api/payments/create-payment-intent`: the provider call
`stripe.paymentIntents.create` is the oracle `createIntent`, mapping the
minor-unit amount to a client secret (`none` models the call throwing).
No local state is mutated on any path. -/
def createPaymentIntent (createIntent : Int → Option String) (uid : Nat)
    (orderId : Option Nat) (s : Store) : IntentResult × Store :=
  match orderId with
  | Option.none => (.invalidRequest, s)
  | some oid =>
    match findUserOrder s oid uid with
    | Option.none => (.notFound, s)
    | some o =>
      if o.paymentStatus == .paid then (.alreadyPaid, s)
      else
        match createIntent (jsRound (o.totalAmount * 100)) with
        | Option.none => (.serverError, s)
        | some secret => (.ok secret, s)

/-! ## Confirm payment (`confirmPayment`) -/

/-- Body of `POST /api/payments/confirm-payment`. -/
structure ConfirmPaymentRequest where
  orderId : Option Nat
  paymentIntentId : Option String
  deriving DecidableEq, Repr

/-- Outcome of `confirmPayment`. -/
inductive ConfirmResult
  | invalidRequest
  | notFound
  | notCompleted
  | serverError
  | confirmed
  deriving DecidableEq, Repr

/-- The record update shared by `confirmPayment` and the webhook success
handler: `{ paymentStatus: 'paid', paymentId: pid, status: 'processing' }`. -/
def markPaid (pid : String) (o : Order) : Order :=
  { o with paymentStatus := .paid, paymentId := some pid, status := .processing }

/-- `POST /api/payments/confirm-payment` (`confirmPayment`): find the caller's
order, retrieve the intent from the provider (`retrieve piid = none` models
the call throwing), and mark the order paid when the intent's status is
`succeeded`.  Note the source checks nothing about the intent's metadata,
amount, or the order's current `paymentStatus`. -/
def confirmPayment (retrieve : String → Option PaymentIntent) (uid : Nat)
    (req : ConfirmPaymentRequest) (s : Store) : ConfirmResult × Store :=
  match req.orderId, req.paymentIntentId with
  | some oid, some piid =>
    match findUserOrder s oid uid with
    | Option.none => (.notFound, s)
    | some _ =>
      match retrieve piid with
      | Option.none => (.serverError, s)
      | some pi =>
        if pi.status == "succeeded" then
          (.confirmed, setOrder s oid (markPaid piid))
        else (.notCompleted, s)
  | _, _ => (.invalidRequest, s)

/-! ## Webhook (`handleWebhook`, `handlePaymentSuccess`, `handlePaymentFailure`) -/

/-- A provider webhook event after signature verification: its `type` string
and its `data.object` payment intent. -/
structure WebhookEvent where
  type : String
  object : PaymentIntent
  deriving DecidableEq, Repr

/-- Fault oracle for the database calls inside the per-event handlers:
`findFails` models `Order.findByPk` throwing, `updateFails` models
`order.update` throwing. -/
structure WebhookFaults where
  findFails : Bool
  updateFails : Bool
  deriving DecidableEq, Repr

/-- Outcome of `handleWebhook`. -/
inductive WebhookResult
  | sigError
  | received
  | processingError
  deriving DecidableEq, Repr

/-- `handlePaymentSuccess`: look up the order named by the intent's metadata
and mark it paid.  The whole body sits in a `try/catch` that only logs, so a
throwing database call (either oracle flag) leaves the state unchanged and
never propagates an error to the caller. -/
def handlePaymentSuccess (faults : WebhookFaults) (pi : PaymentIntent)
    (s : Store) : Store :=
  match pi.metadataOrderId with
  | Option.none => s
  | some oid =>
    if faults.findFails then s
    else
      match findOrder s oid with
      | Option.none => s
      | some _ =>
        if faults.updateFails then s
        else setOrder s oid (markPaid pi.id)

/-- `handlePaymentFailure`: like the success handler but sets
`{ paymentStatus: 'failed', paymentId: pi.id }` and leaves `status` alone;
its `try/catch` also only logs. -/
def handlePaymentFailure (faults : WebhookFaults) (pi : PaymentIntent)
    (s : Store) : Store :=
  match pi.metadataOrderId with
  | Option.none => s
  | some oid =>
    if faults.findFails then s
    else
      match findOrder s oid with
      | Option.none => s
      | some _ =>
        if faults.updateFails then s
        else setOrder s oid (fun o => { o with paymentStatus := .failed, paymentId := some pi.id })

/-- `POST /api/payments/webhook` (`handleWebhook`): `sigOk` is the outcome of
`stripe.webhooks.constructEvent` (signature verification) and `event` the
verified event.  The dispatch `switch` sits in a `try/catch` answering 500
(`processingError`), but both per-event handlers swallow their own errors,
so no path of this source reaches it. -/
def handleWebhook (sigOk : Bool) (faults : WebhookFaults) (event : WebhookEvent)
    (s : Store) : WebhookResult × Store :=
  if !sigOk then (.sigError, s)
  else if event.type == "payment_intent.succeeded" then
    (.received, handlePaymentSuccess faults event.object s)
  else if event.type == "payment_intent.payment_failed" then
    (.received, handlePaymentFailure faults event.object s)
  else
    (.received, s)

/-! ## Refund (`processRefund`) -/

/-- Body of `POST /api/payments/refund`; `none` models an absent or falsy
field (the source tests `amount ? ... : ...` and `!orderId || !reason`). -/
structure RefundRequest where
  orderId : Option Nat
  reason : Option String
  amount : Option ℚ
  deriving DecidableEq, Repr

/-- Outcome of `processRefund`; `refunded` carries the minor-unit amount sent
to the provider. -/
inductive RefundResult
  | invalidRequest (msg : String)
  | notFound
  | serverError
  | refunded (amountMinor : Int)
  deriving DecidableEq, Repr

/-- `POST /api/payments/refund` (`processRefund`): validate, require the order
to be `paid` with a recorded `paymentId`, call the provider
(`refundFails = true` models `stripe.refunds.create` throwing), then set
`paymentStatus: 'refunded', status: 'cancelled'`. -/
def processRefund (refundFails : Bool) (req : RefundRequest) (s : Store) :
    RefundResult × Store :=
  match req.orderId, req.reason with
  | some oid, some _ =>
    match findOrder s oid with
    | Option.none => (.notFound, s)
    | some o =>
      if !(o.paymentStatus == .paid) then
        (.invalidRequest "Order is not paid", s)
      else
        match o.paymentId with
        | Option.none => (.invalidRequest "No payment ID found for this order", s)
        | some _ =>
          if refundFails then (.serverError, s)
          else
            (.refunded (match req.amount with
              | some a => jsRound (a * 100)
              | Option.none => jsRound (o.totalAmount * 100)),
              setOrder s oid (fun o => { o with paymentStatus := .refunded, status := .cancelled }))
  | _, _ => (.invalidRequest "Order ID and reason are required", s)

/-! ## Claim-side order-number shape -/

/-- The `ORD-<digits>-<token>` shape from the specification: literal `ORD-`,
a non-empty run of decimal digits, `-`, then a token of upper-case
alphanumeric characters whose length lies between `lo` and `hi`.  The spec's
sentence uses `lo = hi = 9`. -/
def checkOrderNumber (lo hi : Nat) (sn : String) : Bool :=
  match sn.data with
  | 'O' :: 'R' :: 'D' :: '-' :: rest =>
    !(rest.takeWhile Char.isDigit).isEmpty &&
      (match rest.dropWhile Char.isDigit with
       | '-' :: t =>
         decide (lo ≤ t.length) && decide (t.length ≤ hi) && t.all isUpperAlnum
       | _ => false)
  | _ => false

/-! ## Concrete fixtures (the spec's worked example and small stores) -/

/-- The spec's worked example: `items=[{price:10.00,qty:2},{price:5.00,qty:1}]`. -/
def items0 : List OrderItem :=
  [⟨1, 2, 10⟩, ⟨2, 1, 5⟩]

/-- A valid creation request carrying `items0`. -/
def req0 : CreateOrderRequest :=
  { items := some items0
    shippingAddress := some "221B Baker St"
    billingAddress := Option.none
    notes := Option.none }

/-- A store with two products in stock and no orders. -/
def s0 : Store :=
  { orders := [], products := [⟨1, 1⟩, ⟨2, 3⟩], nextOrderId := 1 }

/-- The order `createOrder` builds from `req0` in `s0` with `Date.now() = 99`
and random string `"0.abc123xyz789"`. -/
def exOrder : Order :=
  { id := 1
    orderNumber := "ORD-99-ABC123XYZ"
    userId := 7
    items := items0
    subtotal := 25
    tax := 5 / 2
    shipping := 10
    discount := 0
    totalAmount := 75 / 2
    status := .pending
    paymentStatus := .pending
    paymentId := Option.none
    shippingAddress := "221B Baker St"
    billingAddress := "221B Baker St"
    notes := Option.none
    trackingNumber := Option.none }

/-- The store after that creation: note product 1's stock went to `-1`. -/
def exStore : Store :=
  { orders := [exOrder], products := [⟨1, -1⟩, ⟨2, 2⟩], nextOrderId := 2 }

/-- Same creation but with random string `"0.i"` (the value of
`(0.5).toString(36)`), giving the one-character token `I`. -/
def exOrderI : Order :=
  { exOrder with orderNumber := "ORD-99-I" }

/-- The store after creating `exOrderI`. -/
def exStoreI : Store :=
  { orders := [exOrderI], products := [⟨1, -1⟩, ⟨2, 2⟩], nextOrderId := 2 }

/-- A store holding one paid, shipped order with a recorded payment id. -/
def paidOrder : Order :=
  { exOrder with
    paymentStatus := .paid
    paymentId := some "pi_1"
    status := .shipped }

/-- Store for the refund and state-machine scenarios. -/
def sPaid : Store :=
  { orders := [paidOrder], products := [⟨1, 5⟩], nextOrderId := 2 }

/-- A succeeded payment intent whose metadata and amount belong to a
different order than the one it is used to confirm. -/
def alienIntent : PaymentIntent :=
  { id := "pi_alien"
    status := "succeeded"
    amount := 999
    metadataOrderId := some 42
    metadataUserId := some 13 }

/-- A succeeded intent bound to order 1. -/
def succIntent : PaymentIntent :=
  { id := "pi_9"
    status := "succeeded"
    amount := 3750
    metadataOrderId := some 1
    metadataUserId := some 7 }

/-- A `payment_intent.succeeded` webhook event for order 1. -/
def succEvent : WebhookEvent :=
  { type := "payment_intent.succeeded", object := succIntent }

/-- A `payment_intent.payment_failed` webhook event for order 1. -/
def failEvent : WebhookEvent :=
  { type := "payment_intent.payment_failed"
    object :=
      { id := "pi_9"
        status := "requires_payment_method"
        amount := 3750
        metadataOrderId := some 1
        metadataUserId := some 7 } }

/-! ## Helper lemmas: strings and decimal digits -/

lemma data_append (a b : String) : (a ++ b).data = a.data ++ b.data := by
  cases a
  cases b
  rfl

lemma digitChar_isDigit {m : Nat} (h : m < 10) : (Nat.digitChar m).isDigit = true := by
  interval_cases m <;> rfl

lemma toDigitsCore_isDigit :
    ∀ (f n : Nat) (acc : List Char), (∀ c ∈ acc, c.isDigit = true) →
      ∀ c ∈ Nat.toDigitsCore 10 f n acc, c.isDigit = true := by
  intro f
  induction f with
  | zero =>
    intro n acc hacc
    simpa [Nat.toDigitsCore] using hacc
  | succ f ih =>
    intro n acc hacc c hc
    rw [Nat.toDigitsCore] at hc
    by_cases hz : n / 10 = 0
    · simp only [hz, if_true] at hc
      rcases List.mem_cons.mp hc with h | h
      · subst h
        exact digitChar_isDigit (Nat.mod_lt _ (by norm_num))
      · exact hacc c h
    · simp only [hz, if_false] at hc
      refine ih (n / 10) (Nat.digitChar (n % 10) :: acc) ?_ c hc
      intro c' hc'
      rcases List.mem_cons.mp hc' with h | h
      · subst h
        exact digitChar_isDigit (Nat.mod_lt _ (by norm_num))
      · exact hacc c' h

lemma toDigitsCore_ne_nil_of_acc :
    ∀ (f n : Nat) (acc : List Char), acc ≠ [] → Nat.toDigitsCore 10 f n acc ≠ [] := by
  intro f
  induction f with
  | zero =>
    intro n acc hacc
    simpa [Nat.toDigitsCore] using hacc
  | succ f ih =>
    intro n acc hacc
    rw [Nat.toDigitsCore]
    by_cases hz : n / 10 = 0
    · simp [hz]
    · simp only [hz, if_false]
      exact ih (n / 10) _ (by simp)

lemma toDigits_ne_nil (n : Nat) : Nat.toDigits 10 n ≠ [] := by
  rw [Nat.toDigits, Nat.toDigitsCore]
  by_cases hz : n / 10 = 0
  · simp [hz]
  · simp only [hz, if_false]
    exact toDigitsCore_ne_nil_of_acc _ _ _ (by simp)

lemma repr_data (n : Nat) : (Nat.repr n).data = Nat.toDigits 10 n := rfl

lemma toString_nat_data (n : Nat) : (toString n).data = Nat.toDigits 10 n := rfl

lemma toString_nat_all_digits (n : Nat) :
    ∀ c ∈ (toString n).data, c.isDigit = true := by
  rw [toString_nat_data, Nat.toDigits]
  exact toDigitsCore_isDigit _ _ _ (by simp)

lemma toString_nat_ne_nil (n : Nat) : (toString n).data ≠ [] := by
  rw [toString_nat_data]
  exact toDigits_ne_nil n

lemma toUpper_base36 {c : Char} (h : isBase36Digit c = true) :
    isUpperAlnum c.toUpper = true := by
  rw [isBase36Digit] at h
  have h2 : c ∈ "0123456789abcdefghijklmnopqrstuvwxyz".data := by
    simpa [List.elem_iff] using h
  fin_cases h2 <;> decide

lemma takeWhile_append_all {p : Char → Bool} :
    ∀ (l1 : List Char) (c : Char) (l2 : List Char), (∀ x ∈ l1, p x = true) →
      p c = false →
      (l1 ++ c :: l2).takeWhile p = l1 ∧ (l1 ++ c :: l2).dropWhile p = c :: l2 := by
  intro l1
  induction l1 with
  | nil =>
    intro c l2 _ hc
    simp [List.takeWhile, List.dropWhile, hc]
  | cons a l1 ih =>
    intro c l2 h1 hc
    have ha : p a = true := h1 a (by simp)
    have := ih c l2 (fun x hx => h1 x (by simp [hx])) hc
    simp [List.takeWhile, List.dropWhile, ha, this.1, this.2]

lemma checkOrderNumber_of (lo hi : Nat) (d t : List Char)
    (hd : d ≠ []) (hdig : ∀ c ∈ d, c.isDigit = true)
    (hlo : lo ≤ t.length) (hhi : t.length ≤ hi)
    (ht : ∀ c ∈ t, isUpperAlnum c = true) :
    checkOrderNumber lo hi ⟨'O' :: 'R' :: 'D' :: '-' :: (d ++ '-' :: t)⟩ = true := by
  have hsplit := takeWhile_append_all d '-' t hdig (by decide)
  rw [checkOrderNumber]
  simp only [hsplit.1, hsplit.2]
  simpa [List.isEmpty_iff, hd, hlo, hhi, List.all_eq_true] using ht

lemma generateOrderNumber_data (now : Nat) (rand : String) :
    (generateOrderNumber now rand).data =
      'O' :: 'R' :: 'D' :: '-' ::
        ((toString now).data ++ '-' :: ((rand.data.drop 2).take 9).map Char.toUpper) := by
  rw [generateOrderNumber]
  simp [data_append, toUpperStr, jsSubstr, List.append_assoc]

lemma wfRandom36_token {rand : String} (h : wfRandom36 rand = true) :
    ∀ x ∈ (rand.data.drop 2).take 9, isBase36Digit x = true := by
  rw [wfRandom36] at h
  split at h
  · next heq =>
    rw [heq]
    simp
  · next ds heq =>
    rw [heq]
    intro x hx
    have hall : ds.all isBase36Digit = true := by
      simp only [Bool.and_eq_true] at h
      exact h.2
    have hx' : x ∈ ds := List.mem_of_mem_take (by simpa using hx)
    exact List.all_eq_true.mp hall x hx'
  · exact absurd h (by simp)

lemma generateOrderNumber_eq_mk (now : Nat) (rand : String) :
    generateOrderNumber now rand =
      ⟨'O' :: 'R' :: 'D' :: '-' ::
        ((toString now).data ++ '-' :: ((rand.data.drop 2).take 9).map Char.toUpper)⟩ := by
  apply String.ext
  simpa using generateOrderNumber_data now rand

lemma generateOrderNumber_shape (now : Nat) (rand : String)
    (h : wfRandom36 rand = true) :
    checkOrderNumber 0 9 (generateOrderNumber now rand) = true := by
  rw [generateOrderNumber_eq_mk]
  refine checkOrderNumber_of 0 9 _ _ (toString_nat_ne_nil now)
    (toString_nat_all_digits now) (Nat.zero_le _) (by simp) ?_
  intro c hc
  rcases List.mem_map.mp hc with ⟨x, hx, rfl⟩
  exact toUpper_base36 (wfRandom36_token h x hx)

lemma generateOrderNumber_ne_empty (now : Nat) (rand : String) :
    generateOrderNumber now rand ≠ "" := by
  intro hcontra
  have : (generateOrderNumber now rand).data = [] := by rw [hcontra]
  rw [generateOrderNumber_data] at this
  simp at this

/-! ## Helper lemmas: the store and the decrement loop -/

lemma setOrder_products (s : Store) (oid : Nat) (g : Order → Order) :
    (setOrder s oid g).products = s.products := rfl

lemma findOrder_setOrder (s : Store) (oid : Nat) (g : Order → Order)
    (hid : ∀ o, (g o).id = o.id) (oid' : Nat) :
    findOrder (setOrder s oid g) oid' =
      (findOrder s oid').map (fun o => if o.id == oid then g o else o) := by
  unfold findOrder setOrder
  rw [List.find?_map]
  have hp : ((fun o : Order => o.id == oid') ∘ (fun o => if o.id == oid then g o else o)) =
      (fun o : Order => o.id == oid') := by
    funext o
    by_cases hc : (o.id == oid) = true <;> simp [Function.comp, hc, hid]
  rw [hp]

lemma payStatusOf_setOrder (s : Store) (oid : Nat) (g : Order → Order)
    (hid : ∀ o, (g o).id = o.id) (oid' : Nat) :
    payStatusOf (setOrder s oid g) oid' =
      (findOrder s oid').map
        (fun o => if o.id == oid then (g o).paymentStatus else o.paymentStatus) := by
  rw [payStatusOf, findOrder_setOrder s oid g hid oid']
  cases findOrder s oid' with
  | none => rfl
  | some o =>
    simp only [Option.map_some', Option.some.injEq]
    exact apply_ite (fun o : Order => o.paymentStatus) _ _ _

lemma runDecrements_some {fault : Nat → Bool} :
    ∀ (items : List OrderItem) (i : Nat) (ps qs : List Product),
      runDecrements fault items i ps = some qs →
      qs = items.foldl (fun acc it => decrementStock acc it.productId it.quantity) ps := by
  intro items
  induction items with
  | nil =>
    intro i ps qs h
    rw [runDecrements] at h
    simpa [List.foldl_nil] using (Option.some_inj.mp h).symm
  | cons it rest ih =>
    intro i ps qs h
    rw [runDecrements] at h
    cases hfi : fault i with
    | true => simp [hfi] at h
    | false =>
      rw [hfi] at h
      simp only [Bool.false_eq_true, if_false] at h
      rw [List.foldl_cons]
      exact ih _ _ _ h

lemma runDecrements_isSome {fault : Nat → Bool} :
    ∀ (items : List OrderItem) (i : Nat) (ps1 ps2 : List Product),
      (runDecrements fault items i ps1).isSome = (runDecrements fault items i ps2).isSome := by
  intro items
  induction items with
  | nil =>
    intro i ps1 ps2
    simp [runDecrements]
  | cons it rest ih =>
    intro i ps1 ps2
    rw [runDecrements, runDecrements]
    cases hfi : fault i with
    | true => simp
    | false => simpa using ih (i + 1) _ _

lemma foldl_decrementStock :
    ∀ (items : List OrderItem) (ps : List Product),
      items.foldl (fun acc it => decrementStock acc it.productId it.quantity) ps =
        ps.map (fun p => { p with stock := p.stock - totalQty p.id items }) := by
  intro items
  induction items with
  | nil =>
    intro ps
    rw [List.foldl_nil]
    have he : (fun p : Product => { p with stock := p.stock - totalQty p.id [] }) =
        fun p => p := by
      funext p
      simp [totalQty]
    rw [he, List.map_id']
  | cons it rest ih =>
    intro ps
    rw [List.foldl_cons, ih, decrementStock, List.map_map]
    apply List.map_congr_left
    intro p _
    simp only [Function.comp]
    by_cases hpq : p.id = it.productId
    · have h1 : (p.id == it.productId) = true := by simp [hpq]
      have h2 : (it.productId == p.id) = true := by simp [hpq.symm]
      simp only [totalQty, List.map_cons, List.sum_cons, h1, h2, if_true]
      rw [sub_sub]
    · have h1 : (p.id == it.productId) = false := by simp [hpq]
      have h2 : (it.productId == p.id) = false := by
        simp only [beq_eq_false_iff_ne, ne_eq]
        exact fun hcontra => hpq hcontra.symm
      simp only [totalQty, List.map_cons, List.sum_cons, h1, h2, if_false]
      simp

/-- Everything that holds of a successful `createOrder` run: the validated
request fields, the exact shape of the created row, and the committed store. -/
lemma createOrder_created_spec {faults : DbFaults} {now : Nat} {rand : String}
    {uid : Nat} {req : CreateOrderRequest} {s : Store} {o : Order} {s' : Store}
    (h : createOrder faults now rand uid req s = (.created o, s')) :
    ∃ items addr, req.items = some items ∧ items.isEmpty = false ∧
      req.shippingAddress = some addr ∧
      o = { id := s.nextOrderId
            orderNumber := generateOrderNumber now rand
            userId := uid
            items := items
            subtotal := computeSubtotal items
            tax := computeSubtotal items * (1 / 10 : ℚ)
            shipping := 10
            discount := 0
            totalAmount := computeSubtotal items + computeSubtotal items * (1 / 10 : ℚ) + 10
            status := .pending
            paymentStatus := .pending
            paymentId := Option.none
            shippingAddress := addr
            billingAddress := (req.billingAddress).getD addr
            notes := req.notes
            trackingNumber := Option.none } ∧
      s'.orders = s.orders ++ [o] ∧
      s'.products = s.products.map
        (fun p => { p with stock := p.stock - totalQty p.id items }) ∧
      s'.nextOrderId = s.nextOrderId + 1 ∧
      (s.orders.any (fun o2 => o2.orderNumber == generateOrderNumber now rand)) = false := by
  simp only [createOrder] at h
  rcases hitems : req.items with _ | items <;> rw [hitems] at h <;>
    try dsimp only [] at h
  · simp at h
  cases hempty : items.isEmpty <;> rw [hempty] at h
  case true => simp at h
  rw [if_neg (by simp)] at h
  rcases haddr : req.shippingAddress with _ | addr <;> rw [haddr] at h <;>
    try dsimp only [] at h
  · simp at h
  cases hguard : (faults.createFails
      || orderValidationFails (computeSubtotal items) (computeSubtotal items * (1 / 10 : ℚ))
        (computeSubtotal items + computeSubtotal items * (1 / 10 : ℚ) + 10)
      || s.orders.any fun o2 => o2.orderNumber == beforeCreate Option.none now rand)
    <;> rw [hguard] at h
  case true => simp at h
  rw [if_neg (by simp)] at h
  rcases hdec : runDecrements faults.decFails items 0 s.products with _ | prods
    <;> rw [hdec] at h <;> try dsimp only [] at h
  · simp at h
  cases hfetch : faults.fetchFails <;> rw [hfetch] at h
  case true => simp at h
  rw [if_neg (by simp)] at h
  rw [Prod.mk.injEq] at h
  obtain ⟨h1, h2⟩ := h
  injection h1 with h1
  subst h1
  subst h2
  have horq := hguard
  simp only [Bool.or_eq_false_iff] at horq
  refine ⟨items, addr, rfl, hempty, rfl, rfl, rfl, ?_, rfl, ?_⟩
  · have := runDecrements_some items 0 _ _ hdec
    rw [this, foldl_decrementStock]
  · simpa [beforeCreate] using horq.2

/-- Unless the post-commit re-fetch is the failing step, every non-`created`
outcome of `createOrder` leaves the store exactly as it was. -/
lemma createOrder_state {faults : DbFaults} {now : Nat} {rand : String} {uid : Nat}
    {req : CreateOrderRequest} {s : Store} {r : CreateOrderResult} {s' : Store}
    (hf : faults.fetchFails = false)
    (h : createOrder faults now rand uid req s = (r, s')) :
    (∃ o, r = .created o) ∨ s' = s := by
  simp only [createOrder] at h
  rcases hitems : req.items with _ | items <;> rw [hitems] at h <;>
    try dsimp only [] at h
  · exact Or.inr (congrArg Prod.snd h).symm
  cases hempty : items.isEmpty <;> rw [hempty] at h
  case true =>
    rw [if_pos rfl] at h
    exact Or.inr (congrArg Prod.snd h).symm
  rw [if_neg (by simp)] at h
  rcases haddr : req.shippingAddress with _ | addr <;> rw [haddr] at h <;>
    try dsimp only [] at h
  · exact Or.inr (congrArg Prod.snd h).symm
  cases hguard : (faults.createFails
      || orderValidationFails (computeSubtotal items) (computeSubtotal items * (1 / 10 : ℚ))
        (computeSubtotal items + computeSubtotal items * (1 / 10 : ℚ) + 10)
      || s.orders.any fun o2 => o2.orderNumber == beforeCreate Option.none now rand)
    <;> rw [hguard] at h
  case true =>
    rw [if_pos rfl] at h
    exact Or.inr (congrArg Prod.snd h).symm
  rw [if_neg (by simp)] at h
  rcases hdec : runDecrements faults.decFails items 0 s.products with _ | prods
    <;> rw [hdec] at h <;> try dsimp only [] at h
  · exact Or.inr (congrArg Prod.snd h).symm
  rw [hf, if_neg (by simp)] at h
  exact Or.inl ⟨_, (congrArg Prod.fst h).symm⟩

lemma findOrder_some_id {s : Store} {oid : Nat} {o : Order}
    (h : findOrder s oid = some o) : (o.id == oid) = true := by
  rw [findOrder] at h
  exact @List.find?_some Order (fun o => o.id == oid) o s.orders h

lemma payStatusOf_setOrder_or (s : Store) (oid : Nat) (g : Order → Order)
    (hid : ∀ o, (g o).id = o.id) (st : PaymentStatus)
    (hg : ∀ o, (g o).paymentStatus = st) (oid' : Nat) :
    payStatusOf (setOrder s oid g) oid' = payStatusOf s oid' ∨
      payStatusOf (setOrder s oid g) oid' = some st := by
  rw [payStatusOf_setOrder s oid g hid oid', payStatusOf]
  cases findOrder s oid' with
  | none =>
    left
    rfl
  | some o =>
    simp only [Option.map_some']
    by_cases hc : (o.id == oid) = true
    · right
      rw [if_pos hc, hg]
    · left
      rw [if_neg hc]

lemma setOrder_idem (s : Store) (oid : Nat) (g : Order → Order)
    (hid : ∀ o, (g o).id = o.id) (hg : ∀ o, g (g o) = g o) :
    setOrder (setOrder s oid g) oid g = setOrder s oid g := by
  unfold setOrder
  simp only [List.map_map]
  congr 1
  apply List.map_congr_left
  intro o _
  simp only [Function.comp]
  by_cases hc : (o.id == oid) = true
  · rw [if_pos hc, if_pos (by rw [hid]; exact hc), hg]
  · rw [if_neg hc, if_neg hc]

lemma computeSubtotal_eq_sum (items : List OrderItem) :
    computeSubtotal items = (items.map (fun it => it.price * (it.quantity : ℚ))).sum := by
  rw [computeSubtotal, List.sum_eq_foldl, List.foldl_map]

lemma statusOf_setOrder (s : Store) (oid : Nat) (g : Order → Order)
    (hid : ∀ o, (g o).id = o.id) (oid' : Nat) :
    statusOf (setOrder s oid g) oid' =
      (findOrder s oid').map (fun o => if o.id == oid then (g o).status else o.status) := by
  rw [statusOf, findOrder_setOrder s oid g hid oid']
  cases findOrder s oid' with
  | none => rfl
  | some o =>
    simp only [Option.map_some', Option.some.injEq]
    exact apply_ite (fun o : Order => o.status) _ _ _

lemma payStatusOf_orders_append {s' s : Store} {o : Order}
    (h : s'.orders = s.orders ++ [o]) (oid' : Nat) :
    payStatusOf s' oid' = payStatusOf s oid' ∨
      payStatusOf s' oid' = some o.paymentStatus := by
  rw [payStatusOf, payStatusOf, findOrder, findOrder, h, List.find?_append]
  cases s.orders.find? (fun x => x.id == oid') with
  | some x =>
    left
    rfl
  | none =>
    rcases hfo : List.find? (fun x => x.id == oid') [o] with _ | y
    · left
      rw [hfo]
      rfl
    · right
      have hy : y = o := by
        have := List.mem_of_find?_eq_some hfo
        simpa using this
      subst hy
      rw [hfo]
      rfl

/-- The store after any `createOrder` run: either untouched, or extended with
exactly one new pending order carrying the generated number, which was fresh. -/
lemma createOrder_orders {faults : DbFaults} {now : Nat} {rand : String} {uid : Nat}
    {req : CreateOrderRequest} {s : Store} {r : CreateOrderResult} {s' : Store}
    (h : createOrder faults now rand uid req s = (r, s')) :
    s' = s ∨
    ∃ o, o.paymentStatus = .pending ∧ o.orderNumber = generateOrderNumber now rand ∧
      s'.orders = s.orders ++ [o] ∧
      (s.orders.any fun o2 => o2.orderNumber == generateOrderNumber now rand) = false := by
  simp only [createOrder] at h
  rcases hitems : req.items with _ | items <;> rw [hitems] at h <;>
    try dsimp only [] at h
  · exact Or.inl (congrArg Prod.snd h).symm
  cases hempty : items.isEmpty <;> rw [hempty] at h
  case true =>
    rw [if_pos rfl] at h
    exact Or.inl (congrArg Prod.snd h).symm
  rw [if_neg (by simp)] at h
  rcases haddr : req.shippingAddress with _ | addr <;> rw [haddr] at h <;>
    try dsimp only [] at h
  · exact Or.inl (congrArg Prod.snd h).symm
  cases hguard : (faults.createFails
      || orderValidationFails (computeSubtotal items) (computeSubtotal items * (1 / 10 : ℚ))
        (computeSubtotal items + computeSubtotal items * (1 / 10 : ℚ) + 10)
      || s.orders.any fun o2 => o2.orderNumber == beforeCreate Option.none now rand)
    <;> rw [hguard] at h
  case true =>
    rw [if_pos rfl] at h
    exact Or.inl (congrArg Prod.snd h).symm
  rw [if_neg (by simp)] at h
  have hany : (s.orders.any fun o2 => o2.orderNumber == generateOrderNumber now rand) = false := by
    have hg2 := hguard
    simp only [Bool.or_eq_false_iff] at hg2
    simpa [beforeCreate] using hg2.2
  rcases hdec : runDecrements faults.decFails items 0 s.products with _ | prods
    <;> rw [hdec] at h <;> try dsimp only [] at h
  · exact Or.inl (congrArg Prod.snd h).symm
  cases hfetch : faults.fetchFails <;> rw [hfetch] at h
  case true =>
    rw [if_pos rfl] at h
    have horders := congrArg (fun p : CreateOrderResult × Store => (Prod.snd p).orders) h
    refine Or.inr ⟨_, ?_, ?_, horders.symm, hany⟩ <;> rfl
  rw [if_neg (by simp)] at h
  have horders := congrArg (fun p : CreateOrderResult × Store => (Prod.snd p).orders) h
  refine Or.inr ⟨_, ?_, ?_, horders.symm, hany⟩ <;> rfl

lemma handlePaymentSuccess_payStatus (faults : WebhookFaults) (pi : PaymentIntent)
    (s : Store) (oid' : Nat) :
    payStatusOf (handlePaymentSuccess faults pi s) oid' = payStatusOf s oid' ∨
      payStatusOf (handlePaymentSuccess faults pi s) oid' = some .paid := by
  rw [handlePaymentSuccess]
  split
  · exact Or.inl rfl
  · split
    · exact Or.inl rfl
    · split
      · exact Or.inl rfl
      · split
        · exact Or.inl rfl
        · exact payStatusOf_setOrder_or s _ (markPaid pi.id) (fun o => rfl) .paid
            (fun o => rfl) oid'

lemma handlePaymentFailure_payStatus (faults : WebhookFaults) (pi : PaymentIntent)
    (s : Store) (oid' : Nat) :
    payStatusOf (handlePaymentFailure faults pi s) oid' = payStatusOf s oid' ∨
      payStatusOf (handlePaymentFailure faults pi s) oid' = some .failed := by
  rw [handlePaymentFailure]
  split
  · exact Or.inl rfl
  · split
    · exact Or.inl rfl
    · split
      · exact Or.inl rfl
      · split
        · exact Or.inl rfl
        · exact payStatusOf_setOrder_or s _
            (fun o => { o with paymentStatus := .failed, paymentId := some pi.id })
            (fun o => rfl) .failed (fun o => rfl) oid'

lemma handlePaymentSuccess_products (faults : WebhookFaults) (pi : PaymentIntent)
    (s : Store) : (handlePaymentSuccess faults pi s).products = s.products := by
  rw [handlePaymentSuccess]
  split
  · rfl
  · split
    · rfl
    · split
      · rfl
      · split
        · rfl
        · rfl

lemma handlePaymentFailure_products (faults : WebhookFaults) (pi : PaymentIntent)
    (s : Store) : (handlePaymentFailure faults pi s).products = s.products := by
  rw [handlePaymentFailure]
  split
  · rfl
  · split
    · rfl
    · split
      · rfl
      · split
        · rfl
        · rfl

lemma handleWebhook_products (sigOk : Bool) (faults : WebhookFaults)
    (ev : WebhookEvent) (s : Store) :
    ((handleWebhook sigOk faults ev s).2).products = s.products := by
  rw [handleWebhook]
  split
  · rfl
  · split
    · exact handlePaymentSuccess_products faults ev.object s
    · split
      · exact handlePaymentFailure_products faults ev.object s
      · rfl

lemma applyUpdate_id (req : UpdateOrderRequest) (o : Order) :
    (applyUpdate req o).id = o.id := by
  rw [applyUpdate]
  rcases req.status with _ | st <;> rcases req.trackingNumber with _ | t <;>
    rcases req.notes with _ | n <;> rfl

lemma applyUpdate_paymentStatus (req : UpdateOrderRequest) (o : Order) :
    (applyUpdate req o).paymentStatus = o.paymentStatus := by
  rw [applyUpdate]
  rcases req.status with _ | st <;> rcases req.trackingNumber with _ | t <;>
    rcases req.notes with _ | n <;> rfl

lemma confirmPayment_products (retrieve : String → Option PaymentIntent) (uid : Nat)
    (req : ConfirmPaymentRequest) (s : Store) :
    ((confirmPayment retrieve uid req s).2).products = s.products := by
  rw [confirmPayment]
  split
  · split
    · rfl
    · split
      · rfl
      · split
        · rfl
        · rfl
  · rfl

lemma confirmPayment_payStatus (retrieve : String → Option PaymentIntent) (uid : Nat)
    (req : ConfirmPaymentRequest) (s : Store) (oid' : Nat) :
    payStatusOf ((confirmPayment retrieve uid req s).2) oid' = payStatusOf s oid' ∨
      payStatusOf ((confirmPayment retrieve uid req s).2) oid' = some .paid := by
  rw [confirmPayment]
  split
  · split
    · exact Or.inl rfl
    · split
      · exact Or.inl rfl
      · split
        · exact payStatusOf_setOrder_or s _ (markPaid _) (fun o => rfl) .paid
            (fun o => rfl) oid'
        · exact Or.inl rfl
  · exact Or.inl rfl

lemma createPaymentIntent_state (ci : Int → Option String) (uid : Nat)
    (orderId : Option Nat) (s : Store) :
    (createPaymentIntent ci uid orderId s).2 = s := by
  rw [createPaymentIntent.eq_def]
  split
  · rfl
  · split
    · rfl
    · split
      · rfl
      · split
        · rfl
        · rfl

lemma processRefund_products (rf : Bool) (req : RefundRequest) (s : Store) :
    ((processRefund rf req s).2).products = s.products := by
  rw [processRefund]
  split
  · split
    · rfl
    · split
      · rfl
      · split
        · rfl
        · split
          · rfl
          · rfl
  · rfl

lemma updateOrderEndpoint_products (uid : Nat) (role : Role) (oid : Nat)
    (req : UpdateOrderRequest) (s : Store) :
    ((updateOrderEndpoint uid role oid req s).2).products = s.products := by
  rw [updateOrderEndpoint]
  split
  · rfl
  · split
    · rfl
    · rfl

lemma updateOrderEndpoint_payStatus (uid : Nat) (role : Role) (oid : Nat)
    (req : UpdateOrderRequest) (s : Store) (oid' : Nat) :
    payStatusOf ((updateOrderEndpoint uid role oid req s).2) oid' = payStatusOf s oid' := by
  rw [updateOrderEndpoint]
  split
  · rfl
  · split
    · rfl
    · rw [payStatusOf_setOrder s oid (applyUpdate req) (applyUpdate_id req) oid',
        payStatusOf]
      cases findOrder s oid' with
      | none => rfl
      | some o => simp only [Option.map_some', applyUpdate_paymentStatus, ite_self]

lemma processRefund_payStatus (rf : Bool) (req : RefundRequest) (s : Store) (oid' : Nat) :
    payStatusOf ((processRefund rf req s).2) oid' = payStatusOf s oid' ∨
      (payStatusOf s oid' = some .paid ∧
        payStatusOf ((processRefund rf req s).2) oid' = some .refunded) := by
  rw [processRefund]
  rcases horder : req.orderId with _ | oid
  · dsimp only []
    exact Or.inl rfl
  rcases hreason : req.reason with _ | rr
  · dsimp only []
    exact Or.inl rfl
  dsimp only []
  rcases hfind : findOrder s oid with _ | o
  · dsimp only []
    exact Or.inl rfl
  dsimp only []
  cases hpaid : o.paymentStatus == PaymentStatus.paid
  case false =>
    rw [if_pos (show (!false) = true from rfl)]
    exact Or.inl rfl
  rw [if_neg (by simp)]
  rcases hpid : o.paymentId with _ | pid
  · dsimp only []
    exact Or.inl rfl
  dsimp only []
  cases rf
  case true =>
    rw [if_pos (show (true : Bool) = true from rfl)]
    exact Or.inl rfl
  rw [if_neg (by simp)]
  dsimp only []
  rw [payStatusOf_setOrder s oid
    (fun o2 => { o2 with paymentStatus := .refunded, status := .cancelled })
    (fun o2 => rfl) oid']
  rcases hfind' : findOrder s oid' with _ | o2
  · left
    rw [payStatusOf, hfind']
    rfl
  by_cases hc : (o2.id == oid) = true
  · right
    have hido : o2.id = oid := by simpa using hc
    have hid2 : o2.id = oid' := by simpa using findOrder_some_id hfind'
    have hoid : oid' = oid := by rw [← hid2, hido]
    subst hoid
    have ho2 : o2 = o := by
      rw [hfind'] at hfind
      exact Option.some_inj.mp hfind
    subst ho2
    constructor
    · rw [payStatusOf, hfind']
      simp only [Option.map_some', Option.some.injEq]
      simpa using hpaid
    · simp only [Option.map_some', if_pos hc]
  · left
    rw [payStatusOf, hfind']
    simp only [Option.map_some', if_neg hc]

lemma confirmPayment_spec {retrieve : String → Option PaymentIntent} {uid oid : Nat}
    {piid : String} {req : ConfirmPaymentRequest} {s : Store} {o : Order}
    {pi : PaymentIntent}
    (h1 : req.orderId = some oid) (h2 : req.paymentIntentId = some piid)
    (h3 : findUserOrder s oid uid = some o) (h4 : retrieve piid = some pi)
    (h5 : pi.status = "succeeded") :
    confirmPayment retrieve uid req s = (.confirmed, setOrder s oid (markPaid piid)) := by
  rw [confirmPayment, h1, h2]
  dsimp only []
  rw [h3]
  dsimp only []
  rw [h4]
  dsimp only []
  rw [h5, if_pos (by decide)]

lemma handlePaymentSuccess_spec {pi : PaymentIntent} {s : Store} {oid : Nat} {o : Order}
    (h1 : pi.metadataOrderId = some oid) (h2 : findOrder s oid = some o) :
    handlePaymentSuccess { findFails := false, updateFails := false } pi s =
      setOrder s oid (markPaid pi.id) := by
  rw [handlePaymentSuccess, h1]
  dsimp only []
  rw [if_neg (by simp), h2]
  dsimp only []
  rw [if_neg (by simp)]

lemma handlePaymentSuccess_noop_on_fault (pi : PaymentIntent) (s : Store) :
    handlePaymentSuccess { findFails := false, updateFails := true } pi s = s := by
  rw [handlePaymentSuccess]
  rcases h1 : pi.metadataOrderId with _ | oid
  · dsimp only []
  dsimp only []
  rw [if_neg (by simp)]
  rcases hfind : findOrder s oid with _ | o
  · dsimp only []
  dsimp only []
  rw [if_pos rfl]

lemma handlePaymentFailure_noop_on_fault (pi : PaymentIntent) (s : Store) :
    handlePaymentFailure { findFails := false, updateFails := true } pi s = s := by
  rw [handlePaymentFailure]
  rcases h1 : pi.metadataOrderId with _ | oid
  · dsimp only []
  dsimp only []
  rw [if_neg (by simp)]
  rcases hfind : findOrder s oid with _ | o
  · dsimp only []
  dsimp only []
  rw [if_pos rfl]

/-! ## Concrete evaluations of the fixtures -/

lemma exEval :
    createOrder DbFaults.none 99 "0.abc123xyz789" 7 req0 s0 = (.created exOrder, exStore) := by
  norm_num [createOrder, computeSubtotal, beforeCreate, generateOrderNumber, toUpperStr,
    jsSubstr, orderValidationFails, runDecrements, decrementStock, DbFaults.none,
    req0, s0, items0, exOrder, exStore]
  all_goals decide

lemma exEvalI :
    createOrder DbFaults.none 99 "0.i" 7 req0 s0 = (.created exOrderI, exStoreI) := by
  norm_num [createOrder, computeSubtotal, beforeCreate, generateOrderNumber, toUpperStr,
    jsSubstr, orderValidationFails, runDecrements, decrementStock, DbFaults.none,
    req0, s0, items0, exOrder, exOrderI, exStoreI]
  all_goals decide

lemma exEvalDecFail :
    createOrder { createFails := false, decFails := fun _ => true, fetchFails := false }
      99 "0.abc123xyz789" 7 req0 s0 = (.serverError, s0) := by
  norm_num [createOrder, computeSubtotal, beforeCreate, generateOrderNumber, toUpperStr,
    jsSubstr, orderValidationFails, runDecrements, decrementStock,
    req0, s0, items0]

lemma exEvalFetch :
    createOrder { createFails := false, decFails := fun _ => false, fetchFails := true }
      99 "0.abc123xyz789" 7 req0 s0 = (.serverError, exStore) := by
  norm_num [createOrder, computeSubtotal, beforeCreate, generateOrderNumber, toUpperStr,
    jsSubstr, orderValidationFails, runDecrements, decrementStock,
    req0, s0, items0, exOrder, exStore]
  all_goals decide


/-! ## Claim theorems -/

/-- C1: for every order-creation request with a non-empty items list that
succeeds, the created order satisfies `subtotal = Σ (price_i * quantity_i)`
over the items, `tax = subtotal * 0.10`, `shipping = 10.00`, `discount = 0`,
and `totalAmount = subtotal + tax + shipping` exactly (arithmetic modelled
over exact rationals). -/
theorem c1_create_order_totals {faults : DbFaults} {now : Nat} {rand : String}
    {uid : Nat} {req : CreateOrderRequest} {s : Store} {o : Order} {s' : Store}
    (h : createOrder faults now rand uid req s = (.created o, s')) :
    o.subtotal = (o.items.map (fun it => it.price * (it.quantity : ℚ))).sum ∧
    o.tax = o.subtotal * (1 / 10 : ℚ) ∧
    o.shipping = 10 ∧
    o.discount = 0 ∧
    o.totalAmount = o.subtotal + o.tax + o.shipping := by
  obtain ⟨items, addr, hitems, hempty, haddr, ho, -, -, -, -⟩ := createOrder_created_spec h
  subst ho
  exact ⟨computeSubtotal_eq_sum items, rfl, rfl, rfl, rfl⟩

/-- Witness for C1 at the spec's worked example
(`items=[{price:10.00,qty:2},{price:5.00,qty:1}]`). -/
theorem c1_witness :
    exOrder.subtotal = (exOrder.items.map (fun it => it.price * (it.quantity : ℚ))).sum ∧
    exOrder.tax = exOrder.subtotal * (1 / 10 : ℚ) ∧
    exOrder.shipping = 10 ∧
    exOrder.discount = 0 ∧
    exOrder.totalAmount = exOrder.subtotal + exOrder.tax + exOrder.shipping :=
  c1_create_order_totals exEval

/-- C8: an order-creation request whose items field is missing / not a list
(`none`) or empty (`some []`) fails with the invalid-request error, and the
store (orders and product stocks alike) is exactly unchanged. -/
theorem c8_empty_items_rejected {faults : DbFaults} {now : Nat} {rand : String}
    {uid : Nat} {req : CreateOrderRequest} {s : Store}
    (h : req.items = Option.none ∨ req.items = some []) :
    createOrder faults now rand uid req s =
      (.invalidRequest "Items are required and must be a non-empty array", s) := by
  rcases h with h | h
  · rw [createOrder, h]
  · rw [createOrder, h]
    rfl

/-- Witness for C8: a concrete missing-items request and a concrete
empty-items request, both rejected with the store unchanged. -/
theorem c8_witness :
    createOrder DbFaults.none 99 "0.abc123xyz789" 7
        { items := Option.none, shippingAddress := some "221B Baker St",
          billingAddress := Option.none, notes := Option.none } s0 =
      (.invalidRequest "Items are required and must be a non-empty array", s0) ∧
    createOrder DbFaults.none 99 "0.abc123xyz789" 7
        { items := some [], shippingAddress := some "221B Baker St",
          billingAddress := Option.none, notes := Option.none } s0 =
      (.invalidRequest "Items are required and must be a non-empty array", s0) :=
  ⟨c8_empty_items_rejected (Or.inl rfl), c8_empty_items_rejected (Or.inr rfl)⟩

/-- C2 counterexample: when the post-commit re-fetch (`Order.findByPk` after
`transaction.commit()`) is the step that fails, the request reports a server
error, yet the order record and the stock decrements persist — so "if any
step of the create-order sequence fails after validation, no order record and
no stock change persist" is false as stated. -/
theorem c2_counterexample :
    createOrder { createFails := false, decFails := fun _ => false, fetchFails := true }
        99 "0.abc123xyz789" 7 req0 s0 = (.serverError, exStore) ∧
    exStore.orders ≠ s0.orders ∧
    exStore.products ≠ s0.products :=
  ⟨exEvalFetch, by decide, by decide⟩

/-- C2 (amended): if any step up to and including the transaction commit
fails, the request fails and neither the order record nor any stock change
persists (full rollback); on success the order record and every stock
decrement persist.  The one exception the source allows is a failure of the
post-commit re-fetch, excluded here by `fetchFails = false`. -/
theorem c2_atomicity {faults : DbFaults} {now : Nat} {rand : String} {uid : Nat}
    {req : CreateOrderRequest} {s : Store} {r : CreateOrderResult} {s' : Store}
    (hf : faults.fetchFails = false)
    (h : createOrder faults now rand uid req s = (r, s')) :
    ((∀ o, r ≠ .created o) → s' = s) ∧
    (∀ o, r = .created o →
      s'.orders = s.orders ++ [o] ∧
      s'.products = s.products.map
        (fun p => { p with stock := p.stock - totalQty p.id o.items })) := by
  constructor
  · intro hnc
    rcases createOrder_state hf h with ⟨o, ho⟩ | hs
    · exact absurd ho (hnc o)
    · exact hs
  · intro o ho
    rw [ho] at h
    obtain ⟨items, addr, -, -, -, hoeq, hords, hprods, -, -⟩ := createOrder_created_spec h
    subst hoeq
    exact ⟨hords, hprods⟩

/-- Witness for C2 (amended): a fault-free run persists the order and the
decrements, and a run whose stock-decrement step throws rolls back to the
original store. -/
theorem c2_witness :
    (exStore.orders = s0.orders ++ [exOrder] ∧
      exStore.products = s0.products.map
        (fun p => { p with stock := p.stock - totalQty p.id exOrder.items })) ∧
    (createOrder { createFails := false, decFails := fun _ => true, fetchFails := false }
        99 "0.abc123xyz789" 7 req0 s0).2 = s0 := by
  refine ⟨(c2_atomicity rfl exEval).2 exOrder rfl, ?_⟩
  have h0 : createOrder { createFails := false, decFails := fun _ => true, fetchFails := false }
      99 "0.abc123xyz789" 7 req0 s0 =
      ((createOrder { createFails := false, decFails := fun _ => true, fetchFails := false }
          99 "0.abc123xyz789" 7 req0 s0).1,
        (createOrder { createFails := false, decFails := fun _ => true, fetchFails := false }
          99 "0.abc123xyz789" 7 req0 s0).2) := rfl
  refine (c2_atomicity rfl h0).1 ?_
  intro o hco
  rw [exEvalDecFail] at hco
  exact CreateOrderResult.noConfusion hco


/-- C3 counterexample: a `payment_intent.payment_failed` webhook delivered for
an order whose `paymentStatus` is `paid` moves it to `failed` — a transition
outside the claimed edge set (`pending→paid`, `pending→failed`,
`paid→refunded`), and one that leaves neither `refunded` nor `failed` alone. -/
theorem c3_counterexample :
    payStatusOf sPaid 1 = some .paid ∧
    payStatusOf ((handleWebhook true { findFails := false, updateFails := false }
        failEvent sPaid).2) 1 = some .failed ∧
    specPaymentEdge .paid .failed = false :=
  ⟨by decide, by decide, by decide⟩

/-- C3 (amended): each operation either leaves an order's `paymentStatus`
unchanged or sets it to that operation's fixed target regardless of the prior
state — `pending` for newly created orders, `paid` for confirm-payment and the
webhook success handler, `failed` for the webhook failure handler — and only
refund is guarded: it moves exactly `paid → refunded`.  (In particular
`paid → failed`, `failed → paid` and `refunded → paid` are reachable, so the
claimed edge set was too small.) -/
theorem c3_payment_transitions :
    (∀ faults now rand uid req s oid',
      payStatusOf ((createOrder faults now rand uid req s).2) oid' = payStatusOf s oid' ∨
        payStatusOf ((createOrder faults now rand uid req s).2) oid' = some .pending) ∧
    (∀ retrieve uid req s oid',
      payStatusOf ((confirmPayment retrieve uid req s).2) oid' = payStatusOf s oid' ∨
        payStatusOf ((confirmPayment retrieve uid req s).2) oid' = some .paid) ∧
    (∀ faults pi s oid',
      payStatusOf (handlePaymentSuccess faults pi s) oid' = payStatusOf s oid' ∨
        payStatusOf (handlePaymentSuccess faults pi s) oid' = some .paid) ∧
    (∀ faults pi s oid',
      payStatusOf (handlePaymentFailure faults pi s) oid' = payStatusOf s oid' ∨
        payStatusOf (handlePaymentFailure faults pi s) oid' = some .failed) ∧
    (∀ sigOk faults ev s oid',
      payStatusOf ((handleWebhook sigOk faults ev s).2) oid' = payStatusOf s oid' ∨
        payStatusOf ((handleWebhook sigOk faults ev s).2) oid' = some .paid ∨
        payStatusOf ((handleWebhook sigOk faults ev s).2) oid' = some .failed) ∧
    (∀ rf req s oid',
      payStatusOf ((processRefund rf req s).2) oid' = payStatusOf s oid' ∨
        (payStatusOf s oid' = some .paid ∧
          payStatusOf ((processRefund rf req s).2) oid' = some .refunded)) ∧
    (∀ uid role oid req s oid',
      payStatusOf ((updateOrderEndpoint uid role oid req s).2) oid' = payStatusOf s oid') := by
  refine ⟨?_, confirmPayment_payStatus, handlePaymentSuccess_payStatus,
    handlePaymentFailure_payStatus, ?_, processRefund_payStatus,
    updateOrderEndpoint_payStatus⟩
  · intro faults now rand uid req s oid'
    have h0 : createOrder faults now rand uid req s =
        ((createOrder faults now rand uid req s).1,
          (createOrder faults now rand uid req s).2) := rfl
    rcases createOrder_orders h0 with hs | ⟨o, hpend, -, hords, -⟩
    · rw [hs]
      exact Or.inl rfl
    · rcases payStatusOf_orders_append hords oid' with h | h
      · exact Or.inl h
      · right
        rw [h, hpend]
  · intro sigOk faults ev s oid'
    rw [handleWebhook]
    split
    · exact Or.inl rfl
    · split
      · rcases handlePaymentSuccess_payStatus faults ev.object s oid' with h | h
        · exact Or.inl h
        · exact Or.inr (Or.inl h)
      · split
        · rcases handlePaymentFailure_payStatus faults ev.object s oid' with h | h
          · exact Or.inl h
          · exact Or.inr (Or.inr h)
        · exact Or.inl rfl

/-- C4 counterexample: a verified, recognized `payment_intent.succeeded`
delivery whose order update throws is answered with the success
acknowledgement (`received`, HTTP 200), not a processing error (5xx) — the
inner `try/catch` of `handlePaymentSuccess` swallows the failure. -/
theorem c4_counterexample :
    handleWebhook true { findFails := false, updateFails := true } succEvent exStore =
      (.received, exStore) ∧
    WebhookResult.received ≠ WebhookResult.processingError :=
  ⟨rfl, by decide⟩

/-- C4 (amended): once the signature verifies, the webhook handler always
acknowledges success, whatever happens while applying the event — failures of
the order lookup or update inside the per-event handlers are swallowed (the
state is simply left unchanged), and the outer 500 path is unreachable for
such failures. -/
theorem c4_webhook_always_acks :
    (∀ faults ev s, (handleWebhook true faults ev s).1 = .received) ∧
    (∀ ev s,
      (handleWebhook true { findFails := false, updateFails := true } ev s).2 = s) := by
  constructor
  · intro faults ev s
    rw [handleWebhook, if_neg (by simp)]
    split
    · rfl
    · split
      · rfl
      · rfl
  · intro ev s
    rw [handleWebhook, if_neg (by simp)]
    split
    · exact handlePaymentSuccess_noop_on_fault ev.object s
    · split
      · exact handlePaymentFailure_noop_on_fault ev.object s
      · rfl

lemma createOrder_fst_stock_free (faults : DbFaults) (now : Nat) (rand : String)
    (uid : Nat) (req : CreateOrderRequest) (ords : List Order)
    (ps1 ps2 : List Product) (k : Nat) :
    (createOrder faults now rand uid req { orders := ords, products := ps1, nextOrderId := k }).1 =
      (createOrder faults now rand uid req { orders := ords, products := ps2, nextOrderId := k }).1 := by
  simp only [createOrder]
  rcases req.items with _ | items
  · rfl
  dsimp only []
  cases hempty : items.isEmpty
  case true => rfl
  rcases req.shippingAddress with _ | addr
  · rfl
  dsimp only []
  cases hguard : (faults.createFails
      || orderValidationFails (computeSubtotal items) (computeSubtotal items * (1 / 10 : ℚ))
        (computeSubtotal items + computeSubtotal items * (1 / 10 : ℚ) + 10)
      || ords.any fun o2 => o2.orderNumber == beforeCreate Option.none now rand)
  case true => rfl
  rcases hd1 : runDecrements faults.decFails items 0 ps1 with _ | p1 <;>
    rcases hd2 : runDecrements faults.decFails items 0 ps2 with _ | p2
  · rfl
  · exfalso
    have hiso := @runDecrements_isSome faults.decFails items 0 ps1 ps2
    rw [hd1, hd2] at hiso
    simp at hiso
  · exfalso
    have hiso := @runDecrements_isSome faults.decFails items 0 ps1 ps2
    rw [hd1, hd2] at hiso
    simp at hiso
  · cases faults.fetchFails <;> rfl

/-- C5: on every successful order creation each product's stock drops by
exactly the summed quantity of the line items referencing it, with no
sufficiency precondition (the outcome of the request does not depend on the
stock values at all, and the subtraction is over `Int`, so it can go below
zero); and no other operation in this scope ever changes the products. -/
theorem c5_stock_semantics :
    (∀ faults now rand uid req s o s',
      createOrder faults now rand uid req s = (.created o, s') →
      s'.products = s.products.map
        (fun p => { p with stock := p.stock - totalQty p.id o.items })) ∧
    (∀ faults now rand uid req ords ps1 ps2 k,
      (createOrder faults now rand uid req
          { orders := ords, products := ps1, nextOrderId := k }).1 =
        (createOrder faults now rand uid req
          { orders := ords, products := ps2, nextOrderId := k }).1) ∧
    (∀ uid role oid req s,
      ((updateOrderEndpoint uid role oid req s).2).products = s.products) ∧
    (∀ ci uid orderId s,
      ((createPaymentIntent ci uid orderId s).2).products = s.products) ∧
    (∀ retrieve uid req s,
      ((confirmPayment retrieve uid req s).2).products = s.products) ∧
    (∀ sigOk faults ev s,
      ((handleWebhook sigOk faults ev s).2).products = s.products) ∧
    (∀ rf req s, ((processRefund rf req s).2).products = s.products) := by
  refine ⟨?_, createOrder_fst_stock_free, updateOrderEndpoint_products, ?_,
    confirmPayment_products, handleWebhook_products, processRefund_products⟩
  · intro faults now rand uid req s o s' h
    obtain ⟨items, addr, -, -, -, hoeq, -, hprods, -, -⟩ := createOrder_created_spec h
    subst hoeq
    exact hprods
  · intro ci uid orderId s
    rw [createPaymentIntent_state]

/-- Witness for C5: the fixture creation drives product 1's stock from 1 to
-1 (it decrements without any sufficiency check). -/
theorem c5_witness :
    exStore.products = s0.products.map
      (fun p => { p with stock := p.stock - totalQty p.id exOrder.items }) ∧
    exStore.products = [⟨1, -1⟩, ⟨2, 2⟩] :=
  ⟨c5_stock_semantics.1 DbFaults.none 99 "0.abc123xyz789" 7 req0 s0 exOrder exStore exEval,
    by decide⟩


/-- C6: the webhook payment-succeeded handler is idempotent — for an order
resolved from the intent's metadata, one application makes it
`paymentStatus = paid, status = processing`, and a second application of the
same event changes nothing. -/
theorem c6_webhook_success_idempotent {pi : PaymentIntent} {s : Store} {oid : Nat}
    {o : Order} (hmeta : pi.metadataOrderId = some oid)
    (hfind : findOrder s oid = some o) :
    payStatusOf (handlePaymentSuccess { findFails := false, updateFails := false } pi s) oid =
      some .paid ∧
    statusOf (handlePaymentSuccess { findFails := false, updateFails := false } pi s) oid =
      some .processing ∧
    handlePaymentSuccess { findFails := false, updateFails := false } pi
        (handlePaymentSuccess { findFails := false, updateFails := false } pi s) =
      handlePaymentSuccess { findFails := false, updateFails := false } pi s := by
  have h1 := handlePaymentSuccess_spec hmeta hfind
  have hid := findOrder_some_id hfind
  rw [h1]
  refine ⟨?_, ?_, ?_⟩
  · rw [payStatusOf_setOrder s oid (markPaid pi.id) (fun o2 => rfl) oid, hfind]
    simp only [Option.map_some', if_pos hid]
    rfl
  · rw [statusOf_setOrder s oid (markPaid pi.id) (fun o2 => rfl) oid, hfind]
    simp only [Option.map_some', if_pos hid]
    rfl
  · have hfind2 : findOrder (setOrder s oid (markPaid pi.id)) oid =
        some (markPaid pi.id o) := by
      rw [findOrder_setOrder s oid (markPaid pi.id) (fun o2 => rfl) oid, hfind]
      simp only [Option.map_some', if_pos hid]
    have h2 := handlePaymentSuccess_spec hmeta hfind2
    rw [h2]
    exact setOrder_idem s oid (markPaid pi.id) (fun o2 => rfl) (fun o2 => rfl)

/-- Witness for C6 at the fixture store: one and two deliveries of
`payment_intent.succeeded` for order 1 agree, ending paid / processing. -/
theorem c6_witness :
    payStatusOf (handlePaymentSuccess { findFails := false, updateFails := false }
        succIntent exStore) 1 = some .paid ∧
    statusOf (handlePaymentSuccess { findFails := false, updateFails := false }
        succIntent exStore) 1 = some .processing ∧
    handlePaymentSuccess { findFails := false, updateFails := false } succIntent
        (handlePaymentSuccess { findFails := false, updateFails := false } succIntent exStore) =
      handlePaymentSuccess { findFails := false, updateFails := false } succIntent exStore :=
  c6_webhook_success_idempotent rfl rfl

/-- C7: refund is rejected with the invalid-request error and an unchanged
store when the order is not `paid`, or is `paid` without a recorded
`paymentId`; an accepted refund (provider call succeeds) sets
`paymentStatus : paid → refunded` and `status := cancelled` whatever the
prior status was. -/
theorem c7_refund_rules :
    (∀ rf req s oid o, req.orderId = some oid → req.reason ≠ Option.none →
      findOrder s oid = some o → o.paymentStatus ≠ .paid →
      processRefund rf req s = (.invalidRequest "Order is not paid", s)) ∧
    (∀ rf req s oid o, req.orderId = some oid → req.reason ≠ Option.none →
      findOrder s oid = some o → o.paymentStatus = .paid → o.paymentId = Option.none →
      processRefund rf req s = (.invalidRequest "No payment ID found for this order", s)) ∧
    (∀ req s oid o pid, req.orderId = some oid → req.reason ≠ Option.none →
      findOrder s oid = some o → o.paymentStatus = .paid → o.paymentId = some pid →
      processRefund false req s =
        (.refunded (match req.amount with
          | some a => jsRound (a * 100)
          | Option.none => jsRound (o.totalAmount * 100)),
         setOrder s oid (fun o2 => { o2 with paymentStatus := .refunded, status := .cancelled })) ∧
      payStatusOf ((processRefund false req s).2) oid = some .refunded ∧
      statusOf ((processRefund false req s).2) oid = some .cancelled) := by
  refine ⟨?_, ?_, ?_⟩
  · intro rf req s oid o h1 h2 hfind hnp
    obtain ⟨rr, hr⟩ : ∃ rr, req.reason = some rr := by
      rcases hrr : req.reason with _ | rr
      · exact absurd hrr h2
      · exact ⟨rr, rfl⟩
    rw [processRefund, h1, hr]
    dsimp only []
    rw [hfind]
    dsimp only []
    rw [beq_eq_false_iff_ne.mpr hnp, if_pos (show (!false) = true from rfl)]
  · intro rf req s oid o h1 h2 hfind hp hpid
    obtain ⟨rr, hr⟩ : ∃ rr, req.reason = some rr := by
      rcases hrr : req.reason with _ | rr
      · exact absurd hrr h2
      · exact ⟨rr, rfl⟩
    rw [processRefund, h1, hr]
    dsimp only []
    rw [hfind]
    dsimp only []
    rw [show (o.paymentStatus == PaymentStatus.paid) = true by simp [hp],
      if_neg (by simp), hpid]
  · intro req s oid o pid h1 h2 hfind hp hpid
    obtain ⟨rr, hr⟩ : ∃ rr, req.reason = some rr := by
      rcases hrr : req.reason with _ | rr
      · exact absurd hrr h2
      · exact ⟨rr, rfl⟩
    have hmain : processRefund false req s =
        (.refunded (match req.amount with
          | some a => jsRound (a * 100)
          | Option.none => jsRound (o.totalAmount * 100)),
         setOrder s oid (fun o2 => { o2 with paymentStatus := .refunded, status := .cancelled })) := by
      rw [processRefund, h1, hr]
      dsimp only []
      rw [hfind]
      dsimp only []
      rw [show (o.paymentStatus == PaymentStatus.paid) = true by simp [hp],
        if_neg (by simp), hpid]
      dsimp only []
      rw [if_neg (by simp)]
    have hid := findOrder_some_id hfind
    refine ⟨hmain, ?_, ?_⟩
    · rw [hmain]
      rw [payStatusOf_setOrder s oid
        (fun o2 => { o2 with paymentStatus := .refunded, status := .cancelled })
        (fun o2 => rfl) oid, hfind]
      simp only [Option.map_some', if_pos hid]
    · rw [hmain]
      rw [statusOf_setOrder s oid
        (fun o2 => { o2 with paymentStatus := .refunded, status := .cancelled })
        (fun o2 => rfl) oid, hfind]
      simp only [Option.map_some', if_pos hid]

/-- Witness for C7: refunding the paid, shipped fixture order is accepted and
lands on `refunded` / `cancelled` (full amount, in minor units); refunding
the pending fixture order is rejected with the store unchanged. -/
theorem c7_witness :
    (processRefund false { orderId := some 1, reason := some "damaged", amount := Option.none }
        sPaid =
      (.refunded (jsRound (paidOrder.totalAmount * 100)),
        setOrder sPaid 1 (fun o2 => { o2 with paymentStatus := .refunded, status := .cancelled })) ∧
      payStatusOf ((processRefund false
        { orderId := some 1, reason := some "damaged", amount := Option.none } sPaid).2) 1 =
        some .refunded ∧
      statusOf ((processRefund false
        { orderId := some 1, reason := some "damaged", amount := Option.none } sPaid).2) 1 =
        some .cancelled) ∧
    processRefund false { orderId := some 1, reason := some "late", amount := Option.none }
        exStore =
      (.invalidRequest "Order is not paid", exStore) :=
  ⟨c7_refund_rules.2.2 _ _ 1 paidOrder "pi_1" rfl (by decide) rfl rfl rfl,
    c7_refund_rules.1 false _ exStore 1 exOrder rfl (by decide) rfl (by decide)⟩

/-- C9 counterexample: with the possible `Math.random().toString(36)` value
`"0.i"` (that of 0.5), the created order's number is `ORD-99-I`, whose token
has one character, not nine — the `ORD-<digits>-<exactly 9 upper-alnum>`
shape of the claim fails. -/
theorem c9_counterexample :
    wfRandom36 "0.i" = true ∧
    createOrder DbFaults.none 99 "0.i" 7 req0 s0 = (.created exOrderI, exStoreI) ∧
    checkOrderNumber 9 9 exOrderI.orderNumber = false :=
  ⟨by decide, exEvalI, by decide⟩

/-- C9 (amended): every generated order number is non-empty and matches
`ORD-<digits>-<token>` with the token made of at most 9 (rather than exactly
9) upper-case alphanumeric characters; it is assigned at creation exactly
when no number was supplied; the created order carries the generated number;
and creation keeps the stored order numbers pairwise distinct (the unique
constraint rejects a colliding insert). -/
theorem c9_order_number :
    (∀ now rand, wfRandom36 rand = true →
      checkOrderNumber 0 9 (generateOrderNumber now rand) = true ∧
      generateOrderNumber now rand ≠ "") ∧
    (∀ now rand n, beforeCreate (some n) now rand = n) ∧
    (∀ now rand, beforeCreate Option.none now rand = generateOrderNumber now rand) ∧
    (∀ faults now rand uid req s o s',
      createOrder faults now rand uid req s = (.created o, s') →
      o.orderNumber = generateOrderNumber now rand) ∧
    (∀ faults now rand uid req s,
      ((s.orders.map (fun o => o.orderNumber)).Nodup) →
      ((((createOrder faults now rand uid req s).2).orders.map
          (fun o => o.orderNumber)).Nodup)) := by
  refine ⟨?_, fun now rand n => rfl, fun now rand => rfl, ?_, ?_⟩
  · intro now rand h
    exact ⟨generateOrderNumber_shape now rand h, generateOrderNumber_ne_empty now rand⟩
  · intro faults now rand uid req s o s' h
    obtain ⟨items, addr, -, -, -, hoeq, -, -, -, -⟩ := createOrder_created_spec h
    subst hoeq
    rfl
  · intro faults now rand uid req s hnd
    have h0 : createOrder faults now rand uid req s =
        ((createOrder faults now rand uid req s).1,
          (createOrder faults now rand uid req s).2) := rfl
    rcases createOrder_orders h0 with hs | ⟨o, -, honum, hords, hany⟩
    · rw [hs]
      exact hnd
    · rw [hords, List.map_append, List.nodup_append]
      refine ⟨hnd, by simp, ?_⟩
      intro a ha hb
      simp only [List.map_cons, List.map_nil, List.mem_singleton] at hb
      subst hb
      rcases List.mem_map.mp ha with ⟨o2, ho2, heq⟩
      have hany2 : ∀ x ∈ s.orders, ¬((fun o3 => o3.orderNumber == generateOrderNumber now rand) x = true) := by
        simpa using List.any_eq_false.mp hany
      exact hany2 o2 ho2 (by simp [heq, honum])

/-- Witness for C9 (amended) on the fixtures. -/
theorem c9_witness :
    (checkOrderNumber 0 9 (generateOrderNumber 99 "0.abc123xyz789") = true ∧
      generateOrderNumber 99 "0.abc123xyz789" ≠ "") ∧
    exOrder.orderNumber = generateOrderNumber 99 "0.abc123xyz789" ∧
    ((exStore.orders.map (fun o => o.orderNumber)).Nodup) := by
  refine ⟨c9_order_number.1 99 "0.abc123xyz789" (by decide),
    c9_order_number.2.2.2.1 DbFaults.none 99 "0.abc123xyz789" 7 req0 s0 exOrder exStore
      exEval, ?_⟩
  have hnd := c9_order_number.2.2.2.2 DbFaults.none 99 "0.abc123xyz789" 7 req0 s0
    (by simp [s0])
  rw [exEval] at hnd
  simpa using hnd

/-- C10 (implicit): confirm-payment marks the order paid from nothing but
"order exists and belongs to the caller" and "the supplied intent's provider
status is `succeeded`" — no hypothesis about the intent's metadata
`orderId`/`userId`, its amount, or the order's current `paymentStatus` is
needed, so an intent created for a different order works. -/
theorem c10_confirm_trusts_intent {retrieve : String → Option PaymentIntent}
    {uid oid : Nat} {piid : String} {req : ConfirmPaymentRequest} {s : Store}
    {o : Order} {pi : PaymentIntent}
    (h1 : req.orderId = some oid) (h2 : req.paymentIntentId = some piid)
    (h3 : findUserOrder s oid uid = some o) (h4 : retrieve piid = some pi)
    (h5 : pi.status = "succeeded") :
    confirmPayment retrieve uid req s = (.confirmed, setOrder s oid (markPaid piid)) ∧
    payStatusOf ((confirmPayment retrieve uid req s).2) oid = some .paid ∧
    statusOf ((confirmPayment retrieve uid req s).2) oid = some .processing := by
  have hmain := confirmPayment_spec h1 h2 h3 h4 h5
  have h3' : s.orders.find? (fun o2 => o2.id == oid && o2.userId == uid) = some o := by
    rw [findUserOrder] at h3
    exact h3
  have hmem := List.mem_of_find?_eq_some h3'
  have hp := @List.find?_some Order (fun o2 => o2.id == oid && o2.userId == uid) o
    s.orders h3'
  have hido : (o.id == oid) = true := by
    simp only [Bool.and_eq_true] at hp
    exact hp.1
  have hsome : (s.orders.find? (fun o2 => o2.id == oid)).isSome = true := by
    rw [List.find?_isSome]
    exact ⟨o, hmem, hido⟩
  rcases hfx : s.orders.find? (fun o2 => o2.id == oid) with _ | x
  · rw [hfx] at hsome
    simp at hsome
  have hfind : findOrder s oid = some x := by
    rw [findOrder]
    exact hfx
  have hidx := findOrder_some_id hfind
  refine ⟨hmain, ?_, ?_⟩
  · rw [hmain]
    rw [payStatusOf_setOrder s oid (markPaid piid) (fun o2 => rfl) oid, hfind]
    simp only [Option.map_some', if_pos hidx]
    rfl
  · rw [hmain]
    rw [statusOf_setOrder s oid (markPaid piid) (fun o2 => rfl) oid, hfind]
    simp only [Option.map_some', if_pos hidx]
    rfl

/-- Witness for C10: an already-paid order of user 7 is re-marked paid via an
intent whose metadata points at order 42 / user 13 and whose amount matches
nothing about the order. -/
theorem c10_witness :
    (confirmPayment (fun x => if x == "pi_alien" then some alienIntent else Option.none) 7
        { orderId := some 1, paymentIntentId := some "pi_alien" } sPaid =
      (.confirmed, setOrder sPaid 1 (markPaid "pi_alien")) ∧
      payStatusOf ((confirmPayment
        (fun x => if x == "pi_alien" then some alienIntent else Option.none) 7
        { orderId := some 1, paymentIntentId := some "pi_alien" } sPaid).2) 1 = some .paid ∧
      statusOf ((confirmPayment
        (fun x => if x == "pi_alien" then some alienIntent else Option.none) 7
        { orderId := some 1, paymentIntentId := some "pi_alien" } sPaid).2) 1 =
        some .processing) ∧
    alienIntent.metadataOrderId ≠ some 1 ∧
    alienIntent.metadataUserId ≠ some 7 ∧
    payStatusOf sPaid 1 = some .paid :=
  ⟨c10_confirm_trusts_intent rfl rfl rfl rfl rfl, by decide, by decide, by decide⟩

end Shoping
